import Mathlib

/-!
Verification of the medquery-rag retrieval pipeline.

The Python sources (retriever.py, embedder.py) are shallowly embedded here:
Python strings are modelled as lists of characters (so that all string
operations are structurally recursive and computable in the kernel),
floats appearing in the scoring/similarity formulas as rationals (every
constant involved is a multiple of 1/2, so rational arithmetic models the
float computation exactly), and the HTTP layer as an oracle giving the
outcome of each attempted GET request.
-/

/-- Python strings, modelled as lists of characters. -/
abbrev Str := List Char

/-- Model of Python str.lower() (ASCII case folding, as Char.toLower). -/
def pyLower (s : Str) : Str := s.map Char.toLower

/-- Model of Python str.strip(): drop leading and trailing whitespace. -/
def pyStrip (s : Str) : Str :=
  ((s.dropWhile Char.isWhitespace).reverse.dropWhile Char.isWhitespace).reverse

/-- Helper for pySplit: accumulates the current word (reversed) while
scanning the input. -/
def pySplitAux : Str → Str → List Str
  | [], acc => if acc = [] then [] else [acc.reverse]
  | c :: rest, acc =>
    if c.isWhitespace then
      if acc = [] then pySplitAux rest []
      else acc.reverse :: pySplitAux rest []
    else pySplitAux rest (c :: acc)

/-- Model of Python str.split() with no argument: split on whitespace runs,
returning no empty words. -/
def pySplit (s : Str) : List Str := pySplitAux s []

/-- Model of the Python substring test (needle in haystack). -/
def isSubstrOf (pat : Str) : Str → Bool
  | [] => pat.isPrefixOf []
  | c :: rest => pat.isPrefixOf (c :: rest) || isSubstrOf pat rest

/-- Fuel-driven helper for pyReplace; fuel bounds the number of consumed
characters so the recursion is structural. -/
def pyReplaceAux (pat rep : Str) : ℕ → Str → Str
  | 0, s => s
  | _ + 1, [] => []
  | fuel + 1, c :: rest =>
    if pat ≠ [] ∧ pat.isPrefixOf (c :: rest) then
      rep ++ pyReplaceAux pat rep fuel ((c :: rest).drop pat.length)
    else
      c :: pyReplaceAux pat rep fuel rest

/-- Model of Python str.replace(pat, rep): replace all non-overlapping
occurrences, left to right.  (The sources only ever call it with a
non-empty pattern.) -/
def pyReplace (s pat rep : Str) : Str := pyReplaceAux pat rep s.length s

/-- Model of " ".join(words). -/
def joinWords (ws : List Str) : Str := List.intercalate [' '] ws

/-- Model of Python list indexing l[i], where a negative index counts from
the end; none models an IndexError. -/
def pyGet (l : List α) (i : ℤ) : Option α :=
  if 0 ≤ i then l.get? i.toNat
  else if (-i).toNat ≤ l.length then l.get? (l.length - (-i).toNat)
  else none

/-- An article record as parsed by parse_pubmed_xml in retriever.py. -/
structure Article where
  pmid : Str
  title : Str
  abstract : Str
  url : Str
deriving DecidableEq

/-- The metadata record built for each document in create_faiss_index
(embedder.py). -/
structure DocMeta where
  title : Str
  url : Str
  pmid : Str
deriving DecidableEq

/-- A result record built by search_similar_documents (embedder.py). -/
structure SimilarityResult where
  rank : ℕ
  similarity_score : ℚ
  text : Str
  metadata : DocMeta
deriving DecidableEq

/-- The distance-to-similarity transform 1 / (1 + distance) used in
search_similar_documents (embedder.py line 122). -/
def similarity (d : ℚ) : ℚ := 1 / (1 + d)

/-- The result-building loop of search_similar_documents (embedder.py lines
117-126): iterate over the (distance, idx) pairs returned by the FAISS
search with their enumeration index i; entries passing the guard
idx < len(metadatas) become result records (note that texts[idx] and
metadatas[idx] are Python indexing, so a negative idx counts from the
end); an IndexError (none from pyGet) aborts into the except branch,
modelled as none. -/
def searchAux (metas : List DocMeta) (texts : List Str) :
    ℕ → List (ℚ × ℤ) → Option (List SimilarityResult)
  | _, [] => some []
  | i, (d, idx) :: rest =>
    if idx < (metas.length : ℤ) then
      match pyGet texts idx, pyGet metas idx with
      | some t, some m =>
        (searchAux metas texts (i + 1) rest).map
          (fun rs => { rank := i + 1, similarity_score := similarity d,
                       text := t, metadata := m } :: rs)
      | _, _ => none
    else searchAux metas texts (i + 1) rest

/-- search_similar_documents (embedder.py lines 88-132), as a function of
the neighbor list (distance, index) returned by the underlying FAISS
index.search call together with the parallel metadata and text lists.
An empty metadata list returns [] (the early guard); an exception during
the loop returns [] (the except branch). -/
def search_similar_documents (neighbors : List (ℚ × ℤ)) (metas : List DocMeta)
    (texts : List Str) : List SimilarityResult :=
  if metas.isEmpty then []
  else (searchAux metas texts 0 neighbors).getD []

/-- The fixed multi-word medical phrase dictionary of extract_medical_terms
(retriever.py lines 184-193). -/
def medicalPhrases : List Str :=
  ["type 2 diabetes", "type 1 diabetes",
   "first-line treatment", "second-line treatment",
   "side effects", "adverse effects",
   "contraindications", "drug interactions",
   "ace inhibitors", "beta blockers",
   "blood pressure", "heart failure",
   "clinical trial", "systematic review",
   "meta-analysis", "guidelines"].map String.toList

/-- The fixed single important word dictionary of extract_medical_terms
(retriever.py lines 201-206). -/
def importantWords : List Str :=
  ["diabetes", "hypertension", "metformin", "insulin",
   "treatment", "therapy", "medication", "drug",
   "elderly", "pediatric", "pregnancy", "renal",
   "cardiovascular", "nephropathy", "retinopathy"].map String.toList

/-- extract_medical_terms (retriever.py lines 179-213): phrases found as
substrings of the query, then important words found among the query's
words; duplicates removed (the Python list(set(...)) order is
unspecified, and irrelevant to the score, which sums over the terms). -/
def extract_medical_terms (query : Str) : List Str :=
  ((medicalPhrases.filter (fun p => isSubstrOf p query)) ++
   (importantWords.filter (fun w => w ∈ pySplit query))).dedup

/-- The sentinel abstract text, lowercased. -/
def noAbstractSentinel : Str := "no abstract available".toList

/-- calculate_relevance_score (retriever.py lines 135-177), translated
clause by clause; scores are rationals (all constants are multiples of
1/2, so this models the float computation exactly). -/
def calculate_relevance_score (article : Article) (query_words : Finset Str)
    (medical_terms : List Str) (full_query : Str) : ℚ :=
  let title := pyLower article.title
  let abstract := pyLower article.abstract
  let score : ℚ := 0
  let score := if isSubstrOf full_query title then score + 10
    else if isSubstrOf full_query abstract then score + 5
    else score
  let score := medical_terms.foldl
    (fun s term => if isSubstrOf term title then s + 3
      else if isSubstrOf term abstract then s + 3/2
      else s) score
  let title_words := (pySplit title).toFinset
  let abstract_words := (pySplit abstract).toFinset
  let score := score + (query_words ∩ title_words).card * 2
  let score := score + (query_words ∩ abstract_words).card * (1/2)
  let score := if abstract ≠ [] ∧ abstract ≠ noAbstractSentinel then score + 1
    else score
  score + 1/2

/-- An article annotated with a relevance_score, as produced by
article.copy() plus the added relevance_score key in
score_articles_by_relevance (retriever.py lines 126-128). -/
structure ScoredArticle where
  article : Article
  relevance_score : ℚ
deriving DecidableEq

/-- The descending-score relation used to sort scored articles: x may come
before y when y's score is at most x's. -/
def scoreGE (x y : ScoredArticle) : Prop :=
  y.relevance_score ≤ x.relevance_score

instance : DecidableRel scoreGE :=
  fun x y => inferInstanceAs (Decidable (y.relevance_score ≤ x.relevance_score))

instance : IsTrans ScoredArticle scoreGE :=
  ⟨fun _ _ _ h1 h2 => le_trans h2 h1⟩

instance : IsTotal ScoredArticle scoreGE :=
  ⟨fun a b => (le_total b.relevance_score a.relevance_score).imp id id⟩

/-- The annotation pass of score_articles_by_relevance (retriever.py lines
116-128): lowercase the query, build the query word set and medical term
list, and attach to each article (a copy of it) its relevance score. -/
def annotateArticles (articles : List Article) (original_query : Str) :
    List ScoredArticle :=
  let query_lower := pyLower original_query
  let query_words := (pySplit query_lower).toFinset
  let medical_terms := extract_medical_terms query_lower
  articles.map (fun a =>
    { article := a,
      relevance_score :=
        calculate_relevance_score a query_words medical_terms query_lower })

/-- score_articles_by_relevance (retriever.py lines 110-133): annotate,
then sort by relevance score, highest first.  Python list.sort with
reverse=True is a stable descending sort, modelled by insertion sort
with the scoreGE relation (equal scores keep original order). -/
def score_articles_by_relevance (articles : List Article)
    (original_query : Str) : List ScoredArticle :=
  List.insertionSort scoreGE (annotateArticles articles original_query)

/-- The interrogative lead phrases removed by clean_medical_query
(retriever.py lines 265-271), in source order. -/
def wordsToRemove : List Str :=
  ["what are the", "what is the", "what are", "what is",
   "how do", "how does", "how can", "how to",
   "when should", "when do", "when is",
   "why do", "why does", "why is",
   "where do", "where does", "where is"].map String.toList

/-- The stopword set of clean_medical_query (retriever.py line 278). -/
def medicalStopwords : List Str :=
  ["a", "an", "the", "of", "at", "by"].map String.toList

/-- Sequential removal of all lead phrases (retriever.py lines 273-275). -/
def stripLeadPhrases (q : Str) : Str :=
  wordsToRemove.foldl (fun s p => pyReplace s p []) q

/-- The stopword filtering stage of clean_medical_query (retriever.py line
280): a word is kept when it is not a stopword, or when the word list
(before removal) has at most 3 words. -/
def stopwordFilter (words : List Str) : List Str :=
  words.filter (fun w => ¬ w ∈ medicalStopwords ∨ words.length ≤ 3)

/-- query.lower().strip() as computed at the top of clean_medical_query. -/
def queryLowered (q : Str) : Str := pyStrip (pyLower q)

/-- The candidate result of clean_medical_query before the length guard
(retriever.py lines 273-282). -/
def preClean (q : Str) : Str :=
  pyStrip (joinWords (stopwordFilter (pySplit (stripLeadPhrases (queryLowered q)))))

/-- The fallback result of clean_medical_query (retriever.py lines 286-287):
the lowercased query with the two most common lead phrases removed,
truncated to the first 6 words. -/
def fallbackClean (q : Str) : Str :=
  joinWords ((pySplit (pyReplace (pyReplace (queryLowered q)
    "what are the".toList []) "what is the".toList [])).take 6)

/-- clean_medical_query (retriever.py lines 258-289). -/
def clean_medical_query (q : Str) : Str :=
  let result := preClean q
  if (pySplit result).length < 2 then fallbackClean q else result

/-- The merge of the two search-strategy result lists inside
get_pubmed_articles (retriever.py lines 21-39): the recency list is
fetched only when the primary list is short of the initial fetch quota,
and its articles are dropped when their pmid is already among the
collected (primary) pmids. -/
def mergeStrategyResults (initialFetch : ℕ) (primary recent : List Article) :
    List Article :=
  if primary.length < initialFetch then
    primary ++ recent.filter (fun a => ¬ a.pmid ∈ primary.map Article.pmid)
  else primary

/-- The outcome of one requests.get attempt inside make_request_with_retry,
as seen by the surrounding control flow: a parsed payload; a response
with status code 429; a requests.RequestException whose message does or
does not contain "429" (raise_for_status or transport failure); or a
json.JSONDecodeError. -/
inductive GetOutcome where
  | ok (payload : ℕ)
  | status429
  | reqErr (msgHas429 : Bool)
  | jsonErr
deriving DecidableEq

/-- The outcome of a whole make_request_with_retry call: the returned value
(none is the Python None), the number of GET attempts actually made, and
the list of backoff waits (in seconds) performed before retries. -/
structure RetryTrace where
  result : Option ℕ
  attemptsMade : ℕ
  waits : List ℕ
deriving DecidableEq

/-- The retry loop of make_request_with_retry (retriever.py lines 219-256),
iterating over the attempt numbers of range(max_retries): before every
attempt but the first, wait 2 ^ attempt seconds; a 429 status or a
RequestException mentioning "429" moves to the next attempt unless this
is the last one (attempt = maxRetries - 1), in which case None is
returned; any other RequestException, and a JSON decode failure, return
None at once; falling off the loop returns None. -/
def retryLoopRun (oracle : ℕ → GetOutcome) (maxRetries : ℕ) :
    List ℕ → RetryTrace
  | [] => { result := none, attemptsMade := 0, waits := [] }
  | attempt :: rest =>
    let ws : List ℕ := if 0 < attempt then [2 ^ attempt] else []
    match oracle attempt with
    | .ok d => { result := some d, attemptsMade := 1, waits := ws }
    | .status429 =>
      if attempt < maxRetries - 1 then
        let t := retryLoopRun oracle maxRetries rest
        { result := t.result, attemptsMade := t.attemptsMade + 1,
          waits := ws ++ t.waits }
      else { result := none, attemptsMade := 1, waits := ws }
    | .reqErr has429 =>
      if has429 then
        if attempt < maxRetries - 1 then
          let t := retryLoopRun oracle maxRetries rest
          { result := t.result, attemptsMade := t.attemptsMade + 1,
            waits := ws ++ t.waits }
        else { result := none, attemptsMade := 1, waits := ws }
      else { result := none, attemptsMade := 1, waits := ws }
    | .jsonErr => { result := none, attemptsMade := 1, waits := ws }

/-- make_request_with_retry (retriever.py lines 215-256) with its default
max_retries = 3, as a function of the oracle giving each attempt's
outcome. -/
def make_request_with_retry (oracle : ℕ → GetOutcome)
    (maxRetries : ℕ := 3) : RetryTrace :=
  retryLoopRun oracle maxRetries (List.range maxRetries)

/-- The relevance score written as the reference sum of the specification
(spec section 4.3), to be compared with calculate_relevance_score. -/
def relevanceScoreSpec (article : Article) (query_words : Finset Str)
    (medical_terms : List Str) (full_query : Str) : ℚ :=
  let title := pyLower article.title
  let abstract := pyLower article.abstract
  (if isSubstrOf full_query title then (10 : ℚ)
    else if isSubstrOf full_query abstract then 5 else 0)
  + (medical_terms.map (fun t => if isSubstrOf t title then (3 : ℚ)
      else if isSubstrOf t abstract then 3/2 else 0)).sum
  + 2 * (query_words ∩ (pySplit title).toFinset).card
  + (1/2) * (query_words ∩ (pySplit abstract).toFinset).card
  + (if abstract ≠ [] ∧ abstract ≠ noAbstractSentinel then 1 else 0)
  + 1/2

lemma foldl_terms_eq (title abstract : Str) (terms : List Str) (init : ℚ) :
    terms.foldl (fun s term => if isSubstrOf term title then s + 3
      else if isSubstrOf term abstract then s + 3/2 else s) init
    = init + (terms.map (fun t => if isSubstrOf t title then (3 : ℚ)
        else if isSubstrOf t abstract then 3/2 else 0)).sum := by
  induction terms generalizing init with
  | nil => simp
  | cons t ts ih =>
    simp only [List.foldl_cons, List.map_cons, List.sum_cons, ih]
    split_ifs <;> ring

lemma calc_eq_spec (article : Article) (query_words : Finset Str)
    (medical_terms : List Str) (full_query : Str) :
    calculate_relevance_score article query_words medical_terms full_query =
      relevanceScoreSpec article query_words medical_terms full_query := by
  unfold calculate_relevance_score relevanceScoreSpec
  simp only [foldl_terms_eq]
  split_ifs <;> ring

/-- C6: the distance-to-similarity transform of search_similar_documents is
s(d) = 1/(1+d); for every distance d at least 0 it is exactly 1 at d = 0,
strictly decreasing, always defined (positive denominator, hence a
positive value), and lies in the half-open interval (0, 1]. -/
theorem c6_similarity_transform (d : ℚ) (hd : 0 ≤ d) :
    similarity 0 = 1 ∧
    (∀ d2 : ℚ, d < d2 → similarity d2 < similarity d) ∧
    0 < similarity d ∧ similarity d ≤ 1 := by
  have hpos : 0 < 1 + d := by linarith
  refine ⟨by norm_num [similarity], fun d2 hlt => ?_, ?_, ?_⟩
  · have hpos2 : 0 < 1 + d2 := by linarith
    exact one_div_lt_one_div_of_lt hpos (by linarith)
  · exact div_pos one_pos hpos
  · rw [similarity, div_le_one hpos]
    linarith

theorem c6_witness :
    (0 : ℚ) ≤ 1 ∧ similarity 0 = 1 ∧ similarity 2 < similarity 1 ∧
    0 < similarity 1 ∧ similarity 1 ≤ 1 :=
  ⟨by norm_num, (c6_similarity_transform 1 (by norm_num)).1,
   (c6_similarity_transform 1 (by norm_num)).2.1 2 (by norm_num),
   (c6_similarity_transform 1 (by norm_num)).2.2.1,
   (c6_similarity_transform 1 (by norm_num)).2.2.2⟩

/-- C1: evaluation of the code at the failing input.  On an index holding a
single document, a FAISS search with k = 2 returns the sentinel pair
(distance, -1) as second neighbor; the guard idx < len(metadatas) of
search_similar_documents admits -1, and Python negative indexing builds
a second result duplicating the only document, instead of silently
dropping the sentinel as the specification requires. -/
theorem c1_sentinel_not_filtered :
    search_similar_documents [(0, 0), (1/2, -1)]
      [{ title := "t".toList, url := "u".toList, pmid := "1".toList }]
      ["t0".toList] =
    [{ rank := 1, similarity_score := 1, text := "t0".toList,
       metadata := { title := "t".toList, url := "u".toList, pmid := "1".toList } },
     { rank := 2, similarity_score := 2/3, text := "t0".toList,
       metadata := { title := "t".toList, url := "u".toList, pmid := "1".toList } }] := by
  have h1 : similarity 0 = 1 := by norm_num [similarity]
  have h2 : similarity 2⁻¹ = 2/3 := by norm_num [similarity]
  simp [search_similar_documents, searchAux, pyGet, h1, h2]

/-- C2: calculate_relevance_score equals the reference sum of the
specification (with title and abstract lowercased): +10 for the full
query as a substring of the title, else +5 for the abstract; per medical
term +3 (title) else +1.5 (abstract); +2 per query word in the title's
word set and +0.5 per query word in the abstract's word set (set
intersection); +1 when the abstract is non-empty and not the sentinel;
plus a flat +0.5 — a pure, deterministic function of its arguments. -/
theorem c2_relevance_score_formula (article : Article) (query_words : Finset Str)
    (medical_terms : List Str) (full_query : Str) :
    calculate_relevance_score article query_words medical_terms full_query =
      relevanceScoreSpec article query_words medical_terms full_query :=
  calc_eq_spec article query_words medical_terms full_query

/-- C3 counterexample: on the cleaned word list x a the of y (5 words), the
code removes the stopwords although the resulting word count (2) drops
to 3 or fewer, instead of skipping removal as the claim states. -/
theorem c3_counterexample :
    ¬ (((stopwordFilter
          ["x".toList, "a".toList, "the".toList, "of".toList, "y".toList]).length ≤ 3) →
        stopwordFilter
          ["x".toList, "a".toList, "the".toList, "of".toList, "y".toList] =
          ["x".toList, "a".toList, "the".toList, "of".toList, "y".toList]) := by
  decide

/-- C3 (amended): for every query, the stopwords are removed from the
cleaned word list unless that word list (before removal) has 3 words or
fewer, in which case stopword removal is skipped entirely and all words
are kept. -/
theorem c3_stopword_removal (q : Str) :
    ((pySplit (stripLeadPhrases (queryLowered q))).length ≤ 3 →
      stopwordFilter (pySplit (stripLeadPhrases (queryLowered q))) =
        pySplit (stripLeadPhrases (queryLowered q))) ∧
    (3 < (pySplit (stripLeadPhrases (queryLowered q))).length →
      stopwordFilter (pySplit (stripLeadPhrases (queryLowered q))) =
        (pySplit (stripLeadPhrases (queryLowered q))).filter
          (fun w => ¬ w ∈ medicalStopwords)) := by
  constructor
  · intro h
    apply List.filter_eq_self.mpr
    intro w _
    simp [stopwordFilter]
    omega
  · intro h
    apply List.filter_congr
    intro w _
    simp only [decide_eq_decide]
    constructor
    · rintro (hw | hw)
      · exact hw
      · omega
    · exact Or.inl

theorem c3_witness :
    3 < (pySplit (stripLeadPhrases (queryLowered "x a the of y".toList))).length ∧
    stopwordFilter (pySplit (stripLeadPhrases (queryLowered "x a the of y".toList))) =
      (pySplit (stripLeadPhrases (queryLowered "x a the of y".toList))).filter
        (fun w => ¬ w ∈ medicalStopwords) :=
  ⟨by decide, (c3_stopword_removal "x a the of y".toList).2 (by decide)⟩

/-- C4 counterexample: the non-empty question diabetes yields a one-word
output, refuting the claim that clean_medical_query always returns at
least 2 words for a non-empty input. -/
theorem c4_counterexample :
    clean_medical_query "diabetes".toList = "diabetes".toList ∧
    (pySplit (clean_medical_query "diabetes".toList)).length = 1 ∧
    "diabetes".toList ≠ [] := by
  decide

/-- C4 (amended): the fallback path (original lowercased query with the two
most common lead phrases removed, truncated to the first 6 words) is
taken if and only if the cleaned result has fewer than 2 words, and
whenever the fallback is not taken the output has at least 2 words; the
fallback output itself may have fewer than 2 words. -/
theorem c4_fallback_guard (q : Str) :
    ((pySplit (preClean q)).length < 2 →
      clean_medical_query q = fallbackClean q) ∧
    (2 ≤ (pySplit (preClean q)).length →
      clean_medical_query q = preClean q ∧
      2 ≤ (pySplit (clean_medical_query q)).length) := by
  unfold clean_medical_query
  constructor
  · intro h
    simp [h]
  · intro h
    rw [if_neg (by omega)]
    exact ⟨rfl, h⟩

theorem c4_witness :
    2 ≤ (pySplit (preClean "metformin side effects in elderly".toList)).length ∧
    clean_medical_query "metformin side effects in elderly".toList =
      preClean "metformin side effects in elderly".toList ∧
    2 ≤ (pySplit (clean_medical_query "metformin side effects in elderly".toList)).length :=
  ⟨by decide, (c4_fallback_guard "metformin side effects in elderly".toList).2 (by decide)⟩

/-- C5 counterexample: the primary list holds pmid 1; the recency list
overlaps it (pmid 1, dropped) but also holds two distinct articles
sharing pmid 2, both of which survive the dedup-against-the-collected-set
filter, so the merged list carries pmid 2 twice. -/
theorem c5_counterexample :
    ({ pmid := "1".toList, title := "t2".toList, abstract := "b2".toList,
       url := "u2".toList : Article }.pmid ∈
      [{ pmid := "1".toList, title := "t".toList, abstract := "b".toList,
         url := "u".toList : Article }].map Article.pmid) ∧
    ¬ ((mergeStrategyResults 15
        [{ pmid := "1".toList, title := "t".toList, abstract := "b".toList,
           url := "u".toList }]
        [{ pmid := "1".toList, title := "t2".toList, abstract := "b2".toList,
           url := "u2".toList },
         { pmid := "2".toList, title := "x".toList, abstract := "y".toList,
           url := "z".toList },
         { pmid := "2".toList, title := "x2".toList, abstract := "y2".toList,
           url := "z2".toList }]).map Article.pmid).Nodup := by
  decide

/-- C5 (amended): provided each strategy's own result list carries pairwise
distinct pmids, the merged article list of get_pubmed_articles contains
each pmid at most once; recency articles whose pmid is already collected
are dropped before appending. -/
theorem c5_dedup (n : ℕ) (primary recent : List Article)
    (h1 : (primary.map Article.pmid).Nodup)
    (h2 : (recent.map Article.pmid).Nodup) :
    ((mergeStrategyResults n primary recent).map Article.pmid).Nodup := by
  unfold mergeStrategyResults
  split
  · rw [List.map_append, List.nodup_append]
    refine ⟨h1, h2.sublist ((List.filter_sublist recent).map Article.pmid), ?_⟩
    intro x hx hx2
    rw [List.mem_map] at hx2
    obtain ⟨a, ha, rfl⟩ := hx2
    rw [List.mem_filter] at ha
    have := ha.2
    simp only [decide_eq_true_eq] at this
    exact this hx
  · exact h1

theorem c5_witness :
    (([{ pmid := "1".toList, title := "t".toList, abstract := "b".toList,
         url := "u".toList : Article }].map Article.pmid).Nodup ∧
     ([{ pmid := "1".toList, title := "t2".toList, abstract := "b2".toList,
         url := "u2".toList : Article },
       { pmid := "2".toList, title := "x".toList, abstract := "y".toList,
         url := "z".toList : Article }].map Article.pmid).Nodup) ∧
    ((mergeStrategyResults 15
      [{ pmid := "1".toList, title := "t".toList, abstract := "b".toList,
         url := "u".toList }]
      [{ pmid := "1".toList, title := "t2".toList, abstract := "b2".toList,
         url := "u2".toList },
       { pmid := "2".toList, title := "x".toList, abstract := "y".toList,
         url := "z".toList }]).map Article.pmid).Nodup :=
  ⟨⟨by decide, by decide⟩, c5_dedup 15 _ _ (by decide) (by decide)⟩

/-- C10: score_articles_by_relevance never mutates its input: stripping the
added relevance_score from the annotation pass returns exactly the input
articles (all identity fields unchanged), the sorted output is a
permutation of those annotated records, and each output record's
relevance_score is the score of the very article it wraps.  The input
list itself is untouched (the embedding is a pure function of it). -/
theorem c10_no_mutation (articles : List Article) (q : Str) :
    (annotateArticles articles q).map ScoredArticle.article = articles ∧
    (score_articles_by_relevance articles q).Perm (annotateArticles articles q) ∧
    ∀ sa ∈ score_articles_by_relevance articles q,
      sa.relevance_score =
        calculate_relevance_score sa.article ((pySplit (pyLower q)).toFinset)
          (extract_medical_terms (pyLower q)) (pyLower q) := by
  refine ⟨?_, List.perm_insertionSort _ _, ?_⟩
  · unfold annotateArticles
    rw [List.map_map]
    exact List.map_id articles
  · intro sa hsa
    have hmem : sa ∈ annotateArticles articles q :=
      (List.mem_insertionSort scoreGE).mp hsa
    unfold annotateArticles at hmem
    rw [List.mem_map] at hmem
    obtain ⟨a, _, rfl⟩ := hmem
    rfl

lemma filter_score_pairwise (l : List ScoredArticle) (s : ℚ) :
    (l.filter (fun x => x.relevance_score = s)).Pairwise scoreGE := by
  apply List.pairwise_of_forall_mem_list
  intro a ha b hb
  rw [List.mem_filter, decide_eq_true_eq] at ha hb
  unfold scoreGE
  rw [ha.2, hb.2]

/-- C7: for every list of articles and every query, the output of
score_articles_by_relevance is sorted in descending order of
relevance_score, and among equal scores the original retrieval order
(that of the annotation pass over the input list) is preserved: the sort
is stable. -/
theorem c7_sorted_stable (articles : List Article) (q : Str) :
    (score_articles_by_relevance articles q).Sorted scoreGE ∧
    ∀ s : ℚ,
      (score_articles_by_relevance articles q).filter
          (fun x => x.relevance_score = s) =
        (annotateArticles articles q).filter
          (fun x => x.relevance_score = s) := by
  constructor
  · exact List.sorted_insertionSort scoreGE _
  · intro s
    unfold score_articles_by_relevance
    set l := annotateArticles articles q with hl
    set p : ScoredArticle → Bool := fun x => decide (x.relevance_score = s) with hp
    have hsub : (l.filter p).Sublist (List.insertionSort scoreGE l) :=
      List.sublist_insertionSort (filter_score_pairwise l s) (List.filter_sublist l)
    have hsub2 : (l.filter p).Sublist ((List.insertionSort scoreGE l).filter p) := by
      have := hsub.filter p
      rwa [List.filter_filter, show (fun a => p a && p a) = p by
        funext a; rw [Bool.and_self]] at this
    have hperm : ((List.insertionSort scoreGE l).filter p).Perm (l.filter p) :=
      (List.perm_insertionSort scoreGE l).filter p
    exact (hsub2.eq_of_length hperm.length_eq.symm).symm

lemma retryLoopRun_attempts_le (o : ℕ → GetOutcome) (m : ℕ) (l : List ℕ) :
    (retryLoopRun o m l).attemptsMade ≤ l.length := by
  induction l with
  | nil => simp [retryLoopRun]
  | cons a rest ih =>
    simp only [retryLoopRun, List.length_cons]
    cases o a with
    | ok d => simp
    | status429 => split_ifs <;> simp <;> omega
    | reqErr b => cases b <;> split_ifs <;> simp <;> omega
    | jsonErr => simp

/-- C8 counterexample: a transient network error (a RequestException whose
message does not contain 429) on the first attempt returns None after a
single attempt and no backoff wait, even though a retry would have
succeeded — the code retries only on 429, refuting the claim that
transient network errors are retried up to 3 attempts. -/
theorem c8_counterexample :
    make_request_with_retry
      (fun n => if n = 0 then .reqErr false else .ok 7) =
      { result := none, attemptsMade := 1, waits := [] } := by
  decide

/-- C8 (amended): make_request_with_retry makes up to 3 attempts total; when
every attempt fails with HTTP 429 (status code 429, or a request
exception whose message contains 429) all 3 attempts are made, waiting
2 ^ attempt seconds before each retry (no wait before the first
attempt, so waits of 2 then 4 seconds) and None is returned after
exhausting the retries; any other transient network error, and a JSON
parse error, at whatever attempt k the loop has reached (attempt k is
reached only when attempts 0..k-1 all failed the 429 way), returns None
immediately — attempt k is the last, and only the backoffs before the
retries already made are waited. -/
theorem c8_retry_policy (oracle : ℕ → GetOutcome) :
    (make_request_with_retry oracle).attemptsMade ≤ 3 ∧
    ((∀ n, oracle n = .status429 ∨ oracle n = .reqErr true) →
      make_request_with_retry oracle =
        { result := none, attemptsMade := 3, waits := [2, 4] }) ∧
    (∀ k, k < 3 →
      (∀ n, n < k → oracle n = .status429 ∨ oracle n = .reqErr true) →
      (oracle k = .reqErr false ∨ oracle k = .jsonErr) →
      make_request_with_retry oracle =
        { result := none, attemptsMade := k + 1,
          waits := ((List.range (k + 1)).filter (fun n => 0 < n)).map
            (fun n => 2 ^ n) }) := by
  have hr : List.range 3 = [0, 1, 2] := by decide
  refine ⟨?_, ?_, ?_⟩
  · have h := retryLoopRun_attempts_le oracle 3 (List.range 3)
    simpa [make_request_with_retry] using h
  · intro h
    unfold make_request_with_retry
    rw [hr]
    rcases h 0 with h0 | h0 <;> rcases h 1 with h1 | h1 <;>
      rcases h 2 with h2 | h2 <;>
        simp [retryLoopRun, h0, h1, h2]
  · intro k hk h429 hfail
    unfold make_request_with_retry
    rw [hr]
    interval_cases k
    · rcases hfail with h0 | h0 <;> simp [retryLoopRun, h0]
    · rcases h429 0 (by omega) with h0 | h0 <;>
        rcases hfail with h1 | h1 <;>
          simp [retryLoopRun, h0, h1] <;> decide
    · rcases h429 0 (by omega) with h0 | h0 <;>
        rcases h429 1 (by omega) with h1 | h1 <;>
          rcases hfail with h2 | h2 <;>
            simp [retryLoopRun, h0, h1, h2] <;> decide

theorem c8_witness :
    make_request_with_retry (fun _ => .status429) =
      { result := none, attemptsMade := 3, waits := [2, 4] } ∧
    make_request_with_retry (fun _ => .reqErr false) =
      { result := none, attemptsMade := 1, waits := [] } ∧
    make_request_with_retry (fun n => if n = 0 then .status429 else .jsonErr) =
      { result := none, attemptsMade := 2, waits := [2] } :=
  ⟨(c8_retry_policy (fun _ => .status429)).2.1 (fun _ => Or.inl rfl),
   (c8_retry_policy (fun _ => .reqErr false)).2.2 0 (by omega)
     (fun n hn => absurd hn (by omega)) (Or.inl rfl),
   (c8_retry_policy (fun n => if n = 0 then .status429 else .jsonErr)).2.2 1
     (by omega) (fun n hn => by interval_cases n; exact Or.inl rfl)
     (Or.inr rfl)⟩

/-- C9 counterexample: two articles identical except for the abstract — one
real abstract containing the query, one sentinel — differ by 6.5, not
1.0: the real abstract also earns the +5 full-query substring bonus and
a +0.5 word overlap, so the delta is not the completeness bonus alone. -/
theorem c9_counterexample :
    calculate_relevance_score
        { pmid := "1".toList, title := "t".toList, abstract := "diabetes".toList,
          url := "u".toList }
        {"diabetes".toList} [] "diabetes".toList -
      calculate_relevance_score
        { pmid := "1".toList, title := "t".toList,
          abstract := "No abstract available".toList, url := "u".toList }
        {"diabetes".toList} [] "diabetes".toList = 13/2 := by
  rw [calc_eq_spec, calc_eq_spec]
  unfold relevanceScoreSpec
  dsimp only
  have hA : ¬ (isSubstrOf "diabetes".toList (pyLower "t".toList) = true) := by decide
  have hB : isSubstrOf "diabetes".toList (pyLower "diabetes".toList) = true := by decide
  have hC : ¬ (isSubstrOf "diabetes".toList
    (pyLower "No abstract available".toList) = true) := by decide
  have c1 : (({"diabetes".toList} : Finset Str) ∩
    (pySplit (pyLower "t".toList)).toFinset).card = 0 := by decide
  have c2 : (({"diabetes".toList} : Finset Str) ∩
    (pySplit (pyLower "diabetes".toList)).toFinset).card = 1 := by decide
  have c3 : (({"diabetes".toList} : Finset Str) ∩
    (pySplit (pyLower "No abstract available".toList)).toFinset).card = 0 := by decide
  have b1 : pyLower "diabetes".toList ≠ [] ∧
    pyLower "diabetes".toList ≠ noAbstractSentinel := by decide
  have b2 : ¬ (pyLower "No abstract available".toList ≠ [] ∧
    pyLower "No abstract available".toList ≠ noAbstractSentinel) := by decide
  simp only [if_neg hA, if_pos hB, if_neg hC, if_pos b1, if_neg b2, c1, c2, c3,
    List.map_nil, List.sum_nil]
  norm_num

/-- C9 (amended): for two articles identical except in the abstract field,
where the first abstract is non-empty and not the sentinel while the
second is empty or the sentinel, and neither abstract contributes any
other scoring signal (the full query is not a substring of either, no
medical term is a substring of either, and neither shares a word with
the query set), the first article earns the +1.0 completeness bonus the
second lacks, and the relevance scores differ by exactly 1.0. -/
theorem c9_abstract_bonus_delta (p t u abs1 abs2 : Str) (qw : Finset Str)
    (terms : List Str) (fq : Str)
    (h1a : pyLower abs1 ≠ []) (h1b : pyLower abs1 ≠ noAbstractSentinel)
    (h2 : pyLower abs2 = [] ∨ pyLower abs2 = noAbstractSentinel)
    (hfq1 : ¬ isSubstrOf fq (pyLower abs1))
    (hfq2 : ¬ isSubstrOf fq (pyLower abs2))
    (hterm1 : ∀ term ∈ terms, ¬ isSubstrOf term (pyLower abs1))
    (hterm2 : ∀ term ∈ terms, ¬ isSubstrOf term (pyLower abs2))
    (hw1 : qw ∩ (pySplit (pyLower abs1)).toFinset = ∅)
    (hw2 : qw ∩ (pySplit (pyLower abs2)).toFinset = ∅) :
    calculate_relevance_score ⟨p, t, abs1, u⟩ qw terms fq -
      calculate_relevance_score ⟨p, t, abs2, u⟩ qw terms fq = 1 := by
  rw [calc_eq_spec, calc_eq_spec]
  simp only [relevanceScoreSpec]
  have e1 : (if isSubstrOf fq (pyLower t) then (10 : ℚ)
      else if isSubstrOf fq (pyLower abs1) then 5 else 0)
      = (if isSubstrOf fq (pyLower t) then (10 : ℚ) else 0) := by
    by_cases hT : isSubstrOf fq (pyLower t) <;> simp [hT, hfq1]
  have e2 : (if isSubstrOf fq (pyLower t) then (10 : ℚ)
      else if isSubstrOf fq (pyLower abs2) then 5 else 0)
      = (if isSubstrOf fq (pyLower t) then (10 : ℚ) else 0) := by
    by_cases hT : isSubstrOf fq (pyLower t) <;> simp [hT, hfq2]
  have m1 : terms.map (fun x => if isSubstrOf x (pyLower t) then (3 : ℚ)
      else if isSubstrOf x (pyLower abs1) then 3/2 else 0)
      = terms.map (fun x => if isSubstrOf x (pyLower t) then (3 : ℚ) else 0) :=
    List.map_congr_left (fun x hx => by
      by_cases hT : isSubstrOf x (pyLower t) <;> simp [hT, hterm1 x hx])
  have m2 : terms.map (fun x => if isSubstrOf x (pyLower t) then (3 : ℚ)
      else if isSubstrOf x (pyLower abs2) then 3/2 else 0)
      = terms.map (fun x => if isSubstrOf x (pyLower t) then (3 : ℚ) else 0) :=
    List.map_congr_left (fun x hx => by
      by_cases hT : isSubstrOf x (pyLower t) <;> simp [hT, hterm2 x hx])
  have b2 : ¬ (pyLower abs2 ≠ [] ∧ pyLower abs2 ≠ noAbstractSentinel) := by
    rcases h2 with h2 | h2 <;> simp [h2]
  have b1 : (if pyLower abs1 ≠ [] ∧ pyLower abs1 ≠ noAbstractSentinel
      then (1 : ℚ) else 0) = 1 := if_pos ⟨h1a, h1b⟩
  have b2e : (if pyLower abs2 ≠ [] ∧ pyLower abs2 ≠ noAbstractSentinel
      then (1 : ℚ) else 0) = 0 := if_neg b2
  rw [e1, e2, m1, m2, hw1, hw2, b1, b2e]
  simp only [Finset.card_empty, Nat.cast_zero]
  ring

theorem c9_witness :
    pyLower "zzz".toList ≠ [] ∧
    pyLower "No abstract available".toList = noAbstractSentinel ∧
    calculate_relevance_score
        ⟨"1".toList, "t".toList, "zzz".toList, "u".toList⟩
        {"q".toList} ["m".toList] "q".toList -
      calculate_relevance_score
        ⟨"1".toList, "t".toList, "No abstract available".toList, "u".toList⟩
        {"q".toList} ["m".toList] "q".toList = 1 :=
  ⟨by decide, by decide,
   c9_abstract_bonus_delta "1".toList "t".toList "u".toList "zzz".toList
     "No abstract available".toList {"q".toList} ["m".toList] "q".toList
     (by decide) (by decide) (Or.inr (by decide)) (by decide) (by decide)
     (by decide) (by decide) (by decide) (by decide)⟩

theorem c10_witness :
    (annotateArticles
        [{ pmid := "1".toList, title := "t".toList, abstract := "b".toList,
           url := "u".toList }] "q".toList).map ScoredArticle.article =
      [{ pmid := "1".toList, title := "t".toList, abstract := "b".toList,
         url := "u".toList }] ∧
    (score_articles_by_relevance
        [{ pmid := "1".toList, title := "t".toList, abstract := "b".toList,
           url := "u".toList }] "q".toList).Perm
      (annotateArticles
        [{ pmid := "1".toList, title := "t".toList, abstract := "b".toList,
           url := "u".toList }] "q".toList) :=
  ⟨(c10_no_mutation
      [{ pmid := "1".toList, title := "t".toList, abstract := "b".toList,
         url := "u".toList }] "q".toList).1,
   (c10_no_mutation
      [{ pmid := "1".toList, title := "t".toList, abstract := "b".toList,
         url := "u".toList }] "q".toList).2.1⟩

example : pySplit "  a b  c ".toList = ["a".toList, "b".toList, "c".toList] := by decide
example : pyLower "AbC".toList = "abc".toList := by decide
example : isSubstrOf "ab".toList "xabz".toList = true := by decide
example : isSubstrOf "ab".toList "xaz".toList = false := by decide
example : pyReplace "aaa".toList "aa".toList "b".toList = "ba".toList := by decide
example : pyStrip "  ab ".toList = "ab".toList := by decide
example : pyGet ["a", "b"] (-1) = some "b" := by decide
example :
    extract_medical_terms "metformin side effects elderly".toList =
      ["side effects".toList, "metformin".toList, "elderly".toList] := by decide
example :
    clean_medical_query "What are the first-line treatments for type 2 diabetes?".toList =
      "first-line treatments for type 2 diabetes?".toList := by decide
example :
    make_request_with_retry (fun n => if n = 0 then .status429 else .ok 7) =
      { result := some 7, attemptsMade := 2, waits := [2] } := by decide
